import Mathlib

/-!
Verification of the Instance Registry and Health/Metrics Aggregator of the
evolution-api repository, via a shallow embedding of `health.service.ts`
(HealthService) and of the WAMonitoringService operations pinned by the
repository's test suite.

The embedding makes the nondeterministic parts of the runtime explicit as an
environment (`HSEnv`): outcomes of the database ping, of the cache
configuration read, of the three cache round-trip operations, the registry
snapshot, and the measured times / system figures. Each method of
`HealthService` becomes a total Lean function of that environment; a step that
may throw in TypeScript is given the type `Except String _`.
-/

/-- `HealthStatus['database']['status']`: `'connected' | 'disconnected' | 'error'`. -/
inductive DbStatus
  | connected
  | disconnected
  | error
deriving DecidableEq, Repr

/-- `HealthStatus['redis']['status']`: `'connected' | 'disconnected' | 'disabled' | 'error'`. -/
inductive RedisStatus
  | connected
  | disconnected
  | disabled
  | error
deriving DecidableEq, Repr

/-- `HealthStatus['status']`: `'healthy' | 'unhealthy' | 'degraded'`. -/
inductive Overall
  | healthy
  | degraded
  | unhealthy
deriving DecidableEq, Repr

/-- The `database` field of `HealthStatus`. -/
structure DbHealth where
  status : DbStatus
  responseTime : Option Nat := none
  error : Option String := none
deriving DecidableEq, Repr

/-- The `redis` field of `HealthStatus`. -/
structure RedisHealth where
  status : RedisStatus
  responseTime : Option Nat := none
  error : Option String := none
deriving DecidableEq, Repr

/-- The `instances` field of `HealthStatus`. -/
structure InstanceStats where
  total : Nat
  active : Nat
  inactive : Nat
deriving DecidableEq, Repr

/-- The `memory` field of `HealthStatus`. -/
structure MemoryUsage where
  used : Nat
  total : Nat
  percentage : Nat
deriving DecidableEq, Repr

/-- The `system` field of `HealthStatus`. -/
structure SystemInfo where
  nodeVersion : String
  platform : String
  arch : String
deriving DecidableEq, Repr

/-- The `HealthStatus` interface of `health.service.ts`. -/
structure HealthStatus where
  status : Overall
  version : String
  timestamp : String
  uptime : Nat
  database : DbHealth
  redis : RedisHealth
  instances : InstanceStats
  memory : MemoryUsage
  system : SystemInfo
deriving DecidableEq, Repr

/-- The `REDIS` part of the `CACHE` configuration read by `checkRedisHealth`. -/
structure RedisConfig where
  enabled : Bool
deriving DecidableEq, Repr

/-- One operation performed against the `CacheService` by the cache probe. -/
inductive CacheOp
  | set (key value : String) (ttl : Nat)
  | get (key : String)
  | delete (key : String)
deriving DecidableEq, Repr

/-- Environment for one invocation of the health service: the outcome of every
external interaction and every runtime reading the methods perform.  A field of
type `Except String _` models a TypeScript step that can throw (carrying the
thrown error's message). -/
structure HSEnv where
  /-- Outcome of `prismaRepository.$queryRaw(SELECT 1)`. -/
  dbQuery : Except String Unit
  /-- Outcome of reading `configService.get('CACHE').REDIS`; the property
  access itself sits outside any try/catch in `checkRedisHealth`, so a throwing
  configuration read propagates out of the cache probe. -/
  cacheConfig : Except String RedisConfig
  /-- Outcome of `cache.set(testKey, 'test', 1)`. -/
  cacheSet : Except String Unit
  /-- Outcome of `cache.get(testKey)`. -/
  cacheGet : Except String (Option String)
  /-- Outcome of `cache.delete(testKey)`. -/
  cacheDelete : Except String Unit
  /-- The throwaway key `'health_check_' + Date.now()` used by the cache probe. -/
  testKey : String
  /-- Outcome of enumerating `waMonitor.waInstances`: a snapshot associating
  each instance name with `instance?.connectionStatus?.state` (`none` when the
  optional chain is absent). -/
  waInstancesRead : Except String (List (String × Option String))
  /-- `Date.now() - startTime` elapsed for the database probe, in ms. -/
  dbElapsed : Nat
  /-- Elapsed time for the cache round trip, in ms. -/
  redisElapsed : Nat
  /-- `Math.floor((Date.now() - this.startTime) / 1000)`. -/
  uptimeNow : Nat
  /-- `process.memoryUsage().heapUsed`. -/
  memUsed : Nat
  /-- `heapTotal + external`. -/
  memTotal : Nat
  /-- `process.env.npm_package_version || '2.3.0'`. -/
  version : String
  /-- `new Date().toISOString()`. -/
  timestamp : String
  nodeVersion : String
  platform : String
  arch : String

/-- `HealthService.checkDatabaseHealth`: ping the store; the whole body is in a
try/catch, so the probe itself never throws. -/
def checkDatabaseHealth (env : HSEnv) : DbHealth :=
  match env.dbQuery with
  | .ok _ => { status := .connected, responseTime := some env.dbElapsed }
  | .error m => { status := .error, responseTime := some env.dbElapsed, error := some m }

/-- `HealthService.checkRedisHealth`, instrumented with the list of cache
operations it performs.  Reading the configuration happens before the
try/catch, so a throwing configuration read escapes as `.error`; failures of
the set/get/delete round trip are caught and reported as a probe `error`
status. -/
def checkRedisHealth (env : HSEnv) : Except String (RedisHealth × List CacheOp) :=
  match env.cacheConfig with
  | .error m => .error m
  | .ok redisConfig =>
    if !redisConfig.enabled then
      .ok ({ status := .disabled }, [])
    else
      match env.cacheSet with
      | .error m =>
        .ok ({ status := .error, responseTime := some env.redisElapsed, error := some m },
          [.set env.testKey "test" 1])
      | .ok _ =>
        match env.cacheGet with
        | .error m =>
          .ok ({ status := .error, responseTime := some env.redisElapsed, error := some m },
            [.set env.testKey "test" 1, .get env.testKey])
        | .ok _ =>
          match env.cacheDelete with
          | .error m =>
            .ok ({ status := .error, responseTime := some env.redisElapsed, error := some m },
              [.set env.testKey "test" 1, .get env.testKey, .delete env.testKey])
          | .ok _ =>
            .ok ({ status := .connected, responseTime := some env.redisElapsed },
              [.set env.testKey "test" 1, .get env.testKey, .delete env.testKey])

/-- Effect of a list of cache operations on a cache state (association list
from key to value); used to state that an empty operation trace leaves the
cache unchanged. -/
def applyCacheOps : List CacheOp → List (String × String) → List (String × String)
  | [], st => st
  | .set k v _ :: rest, st => applyCacheOps rest ((k, v) :: st.filter (fun p => !(p.1 == k)))
  | .get _ :: rest, st => applyCacheOps rest st
  | .delete k :: rest, st => applyCacheOps rest (st.filter (fun p => !(p.1 == k)))

/-- The counting loop of `getInstanceStatistics`: for each instance name,
increment `active` when `connectionStatus?.state === 'open'`, else `inactive`. -/
def countInstances : List (String × Option String) → Nat × Nat → Nat × Nat
  | [], acc => acc
  | p :: rest, (active, inactive) =>
    if p.2 == some "open" then countInstances rest (active + 1, inactive)
    else countInstances rest (active, inactive + 1)

/-- `HealthService.getInstanceStatistics`: enumerate the registry snapshot and
count open handles; any failure is caught and reported as all-zero counts. -/
def getInstanceStatistics (env : HSEnv) : InstanceStats :=
  match env.waInstancesRead with
  | .error _ => { total := 0, active := 0, inactive := 0 }
  | .ok instances =>
    let total := instances.length
    let counts := countInstances instances (0, 0)
    { total := total, active := counts.1, inactive := counts.2 }

/-- `HealthService.getMemoryUsage`.  `percentage` is
`Math.round(used / total * 100)`; the JavaScript `NaN` arising from a zero
total is mapped to `0` (no claim depends on this field). -/
def getMemoryUsage (env : HSEnv) : MemoryUsage :=
  { used := env.memUsed
    total := env.memTotal
    percentage := if env.memTotal = 0 then 0
      else (200 * env.memUsed + env.memTotal) / (2 * env.memTotal) }

/-- `HealthService.getSystemInfo`. -/
def getSystemInfo (env : HSEnv) : SystemInfo :=
  { nodeVersion := env.nodeVersion, platform := env.platform, arch := env.arch }

/-- `HealthService.determineOverallStatus`:
database not connected ⇒ unhealthy; else redis error ⇒ degraded; else healthy. -/
def determineOverallStatus (databaseHealth : DbHealth) (redisHealth : RedisHealth) : Overall :=
  if databaseHealth.status ≠ DbStatus.connected then .unhealthy
  else if redisHealth.status = RedisStatus.error then .degraded
  else .healthy

/-- The try-block of `HealthService.getHealthStatus`: run the probes in order
and assemble the `HealthStatus`; the only step that can throw is the cache
probe's configuration read. -/
def getHealthStatusBody (env : HSEnv) : Except String HealthStatus :=
  let databaseHealth := checkDatabaseHealth env
  match checkRedisHealth env with
  | .error m => .error m
  | .ok (redisHealth, _ops) =>
    let instanceStats := getInstanceStatistics env
    let memoryUsage := getMemoryUsage env
    let systemInfo := getSystemInfo env
    let overallStatus := determineOverallStatus databaseHealth redisHealth
    .ok
      { status := overallStatus
        version := env.version
        timestamp := env.timestamp
        uptime := env.uptimeNow
        database := databaseHealth
        redis := redisHealth
        instances := instanceStats
        memory := memoryUsage
        system := systemInfo }

/-- `HealthService.getHealthStatus`: the try-block wrapped in the top-level
catch, which converts any escaped exception into a fully-populated unhealthy
status carrying the caught error's message in both probe fields. -/
def getHealthStatus (env : HSEnv) : HealthStatus :=
  match getHealthStatusBody env with
  | .ok healthStatus => healthStatus
  | .error m =>
    { status := .unhealthy
      version := env.version
      timestamp := env.timestamp
      uptime := env.uptimeNow
      database := { status := .error, error := some m }
      redis := { status := .error, error := some m }
      instances := { total := 0, active := 0, inactive := 0 }
      memory := getMemoryUsage env
      system := getSystemInfo env }

/-- C1: the overall status is unhealthy exactly when the database probe is not
connected; with a connected database it is degraded exactly when the cache
probe errored, and healthy in every other case; and it is a function of the
two probe statuses alone. -/
theorem c1_determineOverallStatus_spec (db : DbHealth) (r : RedisHealth) :
    (determineOverallStatus db r = .unhealthy ↔ db.status ≠ .connected) ∧
    (db.status = .connected →
      (determineOverallStatus db r = .degraded ↔ r.status = .error)) ∧
    (db.status = .connected → r.status ≠ .error →
      determineOverallStatus db r = .healthy) ∧
    (∀ db2 r2, db.status = db2.status → r.status = r2.status →
      determineOverallStatus db r = determineOverallStatus db2 r2) := by
  refine ⟨?_, ?_, ?_, ?_⟩
  · cases hd : db.status <;> cases hr : r.status <;>
      simp [determineOverallStatus, hd, hr]
  · intro hd
    cases hr : r.status <;> simp [determineOverallStatus, hd, hr]
  · intro hd hr
    simp [determineOverallStatus, hd, hr]
  · intro db2 r2 hd hr
    simp [determineOverallStatus, hd, hr]

/-- Witness for C1 at concrete probe results. -/
theorem c1_determineOverallStatus_spec_witness :
    determineOverallStatus ⟨.connected, none, none⟩ ⟨.error, none, none⟩ = .degraded :=
  ((c1_determineOverallStatus_spec ⟨.connected, none, none⟩
    ⟨.error, none, none⟩).2.1 rfl).mpr rfl

/-- A concrete baseline environment: database reachable, cache disabled, empty
registry, fixed runtime figures. -/
def envBase : HSEnv :=
  { dbQuery := .ok ()
    cacheConfig := .ok { enabled := false }
    cacheSet := .ok ()
    cacheGet := .ok (some "test")
    cacheDelete := .ok ()
    testKey := "health_check_0"
    waInstancesRead := .ok []
    dbElapsed := 5
    redisElapsed := 3
    uptimeNow := 10
    memUsed := 100
    memTotal := 200
    version := "2.3.0"
    timestamp := "2024-01-01T00:00:00.000Z"
    nodeVersion := "v20.0.0"
    platform := "linux"
    arch := "x64" }

/-- C2 counterexample: the probe fields of the fallback status carry the caught
exception's message, which varies with the thrown error, so there is no fixed
message: a configuration read throwing "boom" and one throwing "crash" produce
different error fields. -/
theorem c2_message_not_fixed_counterexample :
    (getHealthStatus { envBase with cacheConfig := .error "boom" }).database.error
        = some "boom" ∧
    (getHealthStatus { envBase with cacheConfig := .error "crash" }).database.error
        = some "crash" ∧
    (getHealthStatus { envBase with cacheConfig := .error "boom" }).redis.error
        = some "boom" ∧
    (getHealthStatus { envBase with cacheConfig := .error "crash" }).redis.error
        = some "crash" ∧
    "boom" ≠ "crash" :=
  ⟨rfl, rfl, rfl, rfl, by decide⟩

/-- C2 (amended): `getHealthStatus` is total by construction — it returns a
`HealthStatus` for every environment — and whenever the probe sequence throws,
the top-level catch returns a fully-populated status with overall `unhealthy`
and both probe fields reporting `error` carrying the caught exception's
message. -/
theorem c2_getHealthStatus_total_catch (env : HSEnv) (m : String)
    (h : getHealthStatusBody env = .error m) :
    getHealthStatus env =
      { status := .unhealthy
        version := env.version
        timestamp := env.timestamp
        uptime := env.uptimeNow
        database := { status := .error, responseTime := none, error := some m }
        redis := { status := .error, responseTime := none, error := some m }
        instances := { total := 0, active := 0, inactive := 0 }
        memory := getMemoryUsage env
        system := getSystemInfo env } := by
  simp [getHealthStatus, h]

/-- Witness for C2 at a concrete throwing environment. -/
theorem c2_getHealthStatus_total_catch_witness :
    getHealthStatus { envBase with cacheConfig := .error "boom" } =
      { status := .unhealthy
        version := "2.3.0"
        timestamp := "2024-01-01T00:00:00.000Z"
        uptime := 10
        database := { status := .error, responseTime := none, error := some "boom" }
        redis := { status := .error, responseTime := none, error := some "boom" }
        instances := { total := 0, active := 0, inactive := 0 }
        memory := { used := 100, total := 200, percentage := 50 }
        system := { nodeVersion := "v20.0.0", platform := "linux", arch := "x64" } } := by
  have h := c2_getHealthStatus_total_catch { envBase with cacheConfig := .error "boom" } "boom" rfl
  rw [h]
  rfl

/-- Accumulator lemma for the counting loop: the two counters always sum to the
initial counters plus the number of processed handles. -/
theorem countInstances_sum (l : List (String × Option String)) (a i : Nat) :
    (countInstances l (a, i)).1 + (countInstances l (a, i)).2 = a + i + l.length := by
  induction l generalizing a i with
  | nil => simp [countInstances]
  | cons p rest ih =>
    simp only [countInstances, List.length_cons]
    split
    · rw [ih]; omega
    · rw [ih]; omega

/-- Accumulator lemma: the active counter counts exactly the handles whose
connection state is `open`. -/
theorem countInstances_active (l : List (String × Option String)) (a i : Nat) :
    (countInstances l (a, i)).1
      = a + (l.filter (fun p => p.2 == some "open")).length := by
  induction l generalizing a i with
  | nil => simp [countInstances]
  | cons p rest ih =>
    cases hp : (p.2 == some "open") with
    | true =>
      simp [countInstances, hp, ih]
      omega
    | false =>
      simp [countInstances, hp, ih]

/-- The instance counts inside a `HealthStatus` come either from
`getInstanceStatistics` (normal path) or are all zero (catch path). -/
theorem getHealthStatus_instances (env : HSEnv) :
    (getHealthStatus env).instances = getInstanceStatistics env ∨
    (getHealthStatus env).instances = { total := 0, active := 0, inactive := 0 } := by
  cases h : checkRedisHealth env with
  | error m => exact Or.inr (by simp [getHealthStatus, getHealthStatusBody, h])
  | ok pr => exact Or.inl (by simp [getHealthStatus, getHealthStatusBody, h])

/-- C3: for every registry snapshot, including the error-fallback path, the
instance statistics satisfy `active + inactive = total`, `active` counts
exactly the handles whose connection state is `open`, and the invariant holds
for the statistics inside every returned `HealthStatus`. -/
theorem c3_instance_stats_invariant (env : HSEnv) :
    (getInstanceStatistics env).active + (getInstanceStatistics env).inactive
        = (getInstanceStatistics env).total ∧
    (∀ l, env.waInstancesRead = .ok l →
      (getInstanceStatistics env).active
          = (l.filter (fun p => p.2 == some "open")).length) ∧
    (getHealthStatus env).instances.active + (getHealthStatus env).instances.inactive
        = (getHealthStatus env).instances.total := by
  have hsum : (getInstanceStatistics env).active + (getInstanceStatistics env).inactive
      = (getInstanceStatistics env).total := by
    cases h : env.waInstancesRead with
    | error m => simp [getInstanceStatistics, h]
    | ok l =>
      simp only [getInstanceStatistics, h]
      have := countInstances_sum l 0 0
      omega
  refine ⟨hsum, ?_, ?_⟩
  · intro l hl
    simp only [getInstanceStatistics, hl]
    have := countInstances_active l 0 0
    omega
  · rcases getHealthStatus_instances env with h | h
    · rw [h]; exact hsum
    · rw [h]
      rfl

/-- A concrete environment whose registry holds one open and one closed
instance. -/
def envTwoInstances : HSEnv :=
  { envBase with
    waInstancesRead := .ok [("instance1", some "open"), ("instance2", some "close")] }

/-- Witness for C3 at a concrete two-instance registry. -/
theorem c3_instance_stats_invariant_witness :
    (getInstanceStatistics envTwoInstances).active
      = (([("instance1", some "open"), ("instance2", some "close")]
            : List (String × Option String)).filter
          (fun p => p.2 == some "open")).length :=
  (c3_instance_stats_invariant envTwoInstances).2.1 _ rfl

/-- The `MetricsData` interface of `health.service.ts` (the optional HTTP
fields are never set by `getMetrics` and are omitted). -/
structure MetricsData where
  system_uptime_seconds : Nat
  system_memory_usage_bytes : Nat
  system_memory_total_bytes : Nat
  app_instances_total : Nat
  app_instances_active : Nat
  app_instances_inactive : Nat
  database_connection_status : Nat
  database_response_time_ms : Nat
  redis_connection_status : Nat
  redis_response_time_ms : Nat
deriving DecidableEq, Repr

/-- The `MetricsData` assembled by `HealthService.getMetrics` from a
`HealthStatus` (`x ? 1 : 0` for the connection gauges, `|| 0` for the response
times). -/
def metricsDataOf (healthStatus : HealthStatus) : MetricsData :=
  { system_uptime_seconds := healthStatus.uptime
    system_memory_usage_bytes := healthStatus.memory.used
    system_memory_total_bytes := healthStatus.memory.total
    app_instances_total := healthStatus.instances.total
    app_instances_active := healthStatus.instances.active
    app_instances_inactive := healthStatus.instances.inactive
    database_connection_status :=
      if healthStatus.database.status = .connected then 1 else 0
    database_response_time_ms := healthStatus.database.responseTime.getD 0
    redis_connection_status :=
      if healthStatus.redis.status = .connected then 1 else 0
    redis_response_time_ms := healthStatus.redis.responseTime.getD 0 }

/-- The `lines` array built by `HealthService.formatPrometheusMetrics`, in
source order (each series: HELP comment, TYPE comment, sample, blank line). -/
def prometheusLines (metrics : MetricsData) : List String :=
  [ "# HELP evolution_api_uptime_seconds Total uptime of the application in seconds"
  , "# TYPE evolution_api_uptime_seconds counter"
  , "evolution_api_uptime_seconds " ++ toString metrics.system_uptime_seconds
  , ""
  , "# HELP evolution_api_memory_usage_bytes Current memory usage in bytes"
  , "# TYPE evolution_api_memory_usage_bytes gauge"
  , "evolution_api_memory_usage_bytes " ++ toString metrics.system_memory_usage_bytes
  , ""
  , "# HELP evolution_api_instances_total Total number of WhatsApp instances"
  , "# TYPE evolution_api_instances_total gauge"
  , "evolution_api_instances_total " ++ toString metrics.app_instances_total
  , ""
  , "# HELP evolution_api_instances_active Number of active WhatsApp instances"
  , "# TYPE evolution_api_instances_active gauge"
  , "evolution_api_instances_active " ++ toString metrics.app_instances_active
  , ""
  , "# HELP evolution_api_database_up Database connection status (1 = up, 0 = down)"
  , "# TYPE evolution_api_database_up gauge"
  , "evolution_api_database_up " ++ toString metrics.database_connection_status
  , ""
  , "# HELP evolution_api_database_response_time_ms Database response time in milliseconds"
  , "# TYPE evolution_api_database_response_time_ms gauge"
  , "evolution_api_database_response_time_ms " ++ toString metrics.database_response_time_ms
  , ""
  , "# HELP evolution_api_redis_up Redis connection status (1 = up, 0 = down)"
  , "# TYPE evolution_api_redis_up gauge"
  , "evolution_api_redis_up " ++ toString metrics.redis_connection_status
  , "" ]

/-- `HealthService.formatPrometheusMetrics`: `lines.join('\n')`. -/
def formatPrometheusMetrics (metrics : MetricsData) : String :=
  String.intercalate "\n" (prometheusLines metrics)

/-- `HealthService.getMetrics`, parameterized by the formatting step (the
repository's test replaces `formatPrometheusMetrics` with a throwing stub to
exercise the propagation path): build the health status, assemble the
`MetricsData`, render it; the catch block logs and rethrows the error as-is. -/
def getMetricsWith (fmt : MetricsData → Except String String) (env : HSEnv) :
    Except String String :=
  let healthStatus := getHealthStatus env
  let metrics := metricsDataOf healthStatus
  match fmt metrics with
  | .ok text => .ok text
  | .error e => .error e

/-- `HealthService.getMetrics` with the real formatter. -/
def getMetrics (env : HSEnv) : Except String String :=
  getMetricsWith (fun metrics => .ok (formatPrometheusMetrics metrics)) env

/-- Whether `needle` occurs as a contiguous run inside `hay`. -/
def mentionsToken (needle : List Char) : List Char → Bool
  | [] => needle.isEmpty
  | c :: rest => needle.isPrefixOf (c :: rest) || mentionsToken needle rest

/-- A concrete `MetricsData` for the C4 counterexample. -/
def metricsSample : MetricsData :=
  { system_uptime_seconds := 3600
    system_memory_usage_bytes := 100
    system_memory_total_bytes := 200
    app_instances_total := 2
    app_instances_active := 1
    app_instances_inactive := 1
    database_connection_status := 1
    database_response_time_ms := 10
    redis_connection_status := 1
    redis_response_time_ms := 5 }

/-- C4 counterexample: the rendered exposition carries no series for the cache
response time — it is identical for two metric records that differ only in
`redis_response_time_ms`, and no output line even mentions that series name. -/
theorem c4_no_redis_response_time_counterexample :
    formatPrometheusMetrics metricsSample
        = formatPrometheusMetrics { metricsSample with redis_response_time_ms := 9999 } ∧
    metricsSample.redis_response_time_ms
        ≠ ({ metricsSample with redis_response_time_ms := 9999 } : MetricsData).redis_response_time_ms ∧
    ((prometheusLines metricsSample).all
        (fun l => !(mentionsToken "redis_response_time".data l.data))) = true :=
  ⟨rfl, by decide, by decide⟩

/-- C4 (amended): `getMetrics` renders, for every environment, the uptime
counter, memory-usage gauge, total and active instance gauges, the database
up/down gauge and database response-time gauge, and the cache up/down gauge —
each sample preceded by its `# HELP` and `# TYPE` lines; the cache
response-time series is computed into `MetricsData` but never rendered. -/
theorem c4_metrics_series (env : HSEnv) (m : MetricsData) :
    getMetrics env = .ok (formatPrometheusMetrics (metricsDataOf (getHealthStatus env))) ∧
    (prometheusLines m)[0]? = some "# HELP evolution_api_uptime_seconds Total uptime of the application in seconds" ∧
    (prometheusLines m)[1]? = some "# TYPE evolution_api_uptime_seconds counter" ∧
    (prometheusLines m)[2]? = some ("evolution_api_uptime_seconds " ++ toString m.system_uptime_seconds) ∧
    (prometheusLines m)[4]? = some "# HELP evolution_api_memory_usage_bytes Current memory usage in bytes" ∧
    (prometheusLines m)[5]? = some "# TYPE evolution_api_memory_usage_bytes gauge" ∧
    (prometheusLines m)[6]? = some ("evolution_api_memory_usage_bytes " ++ toString m.system_memory_usage_bytes) ∧
    (prometheusLines m)[8]? = some "# HELP evolution_api_instances_total Total number of WhatsApp instances" ∧
    (prometheusLines m)[9]? = some "# TYPE evolution_api_instances_total gauge" ∧
    (prometheusLines m)[10]? = some ("evolution_api_instances_total " ++ toString m.app_instances_total) ∧
    (prometheusLines m)[12]? = some "# HELP evolution_api_instances_active Number of active WhatsApp instances" ∧
    (prometheusLines m)[13]? = some "# TYPE evolution_api_instances_active gauge" ∧
    (prometheusLines m)[14]? = some ("evolution_api_instances_active " ++ toString m.app_instances_active) ∧
    (prometheusLines m)[16]? = some "# HELP evolution_api_database_up Database connection status (1 = up, 0 = down)" ∧
    (prometheusLines m)[17]? = some "# TYPE evolution_api_database_up gauge" ∧
    (prometheusLines m)[18]? = some ("evolution_api_database_up " ++ toString m.database_connection_status) ∧
    (prometheusLines m)[20]? = some "# HELP evolution_api_database_response_time_ms Database response time in milliseconds" ∧
    (prometheusLines m)[21]? = some "# TYPE evolution_api_database_response_time_ms gauge" ∧
    (prometheusLines m)[22]? = some ("evolution_api_database_response_time_ms " ++ toString m.database_response_time_ms) ∧
    (prometheusLines m)[24]? = some "# HELP evolution_api_redis_up Redis connection status (1 = up, 0 = down)" ∧
    (prometheusLines m)[25]? = some "# TYPE evolution_api_redis_up gauge" ∧
    (prometheusLines m)[26]? = some ("evolution_api_redis_up " ++ toString m.redis_connection_status) :=
  ⟨rfl, rfl, rfl, rfl, rfl, rfl, rfl, rfl, rfl, rfl, rfl, rfl, rfl, rfl, rfl,
    rfl, rfl, rfl, rfl, rfl, rfl, rfl⟩

/-- C8: with the cache configured disabled, the cache probe reports `disabled`
immediately, performs no cache operation (so any cache state is unchanged),
the health status reports the cache as `disabled`, and a connected database
then yields an overall `healthy` verdict. -/
theorem c8_checkRedisHealth_disabled (env : HSEnv) (cfg : RedisConfig)
    (hc : env.cacheConfig = .ok cfg) (he : cfg.enabled = false) :
    checkRedisHealth env
        = .ok ({ status := .disabled, responseTime := none, error := none }, []) ∧
    (∀ (st : List (String × String)) (r : RedisHealth) (ops : List CacheOp),
      checkRedisHealth env = .ok (r, ops) → applyCacheOps ops st = st) ∧
    (getHealthStatus env).redis
        = { status := .disabled, responseTime := none, error := none } ∧
    ((getHealthStatus env).database.status = .connected →
      (getHealthStatus env).status = .healthy) := by
  have hred : checkRedisHealth env
      = .ok ({ status := .disabled, responseTime := none, error := none }, []) := by
    simp [checkRedisHealth, hc, he]
  refine ⟨hred, ?_, ?_, ?_⟩
  · intro st r ops hops
    rw [hred] at hops
    have h2 : ([] : List CacheOp) = ops := congrArg Prod.snd (Except.ok.inj hops)
    rw [← h2]
    rfl
  · simp [getHealthStatus, getHealthStatusBody, hred]
  · intro hdb
    simp [getHealthStatus, getHealthStatusBody, hred] at hdb ⊢
    simp [determineOverallStatus, hdb]

/-- Witness for C8 at the concrete disabled-cache environment. -/
theorem c8_checkRedisHealth_disabled_witness :
    checkRedisHealth envBase
        = .ok ({ status := .disabled, responseTime := none, error := none }, []) :=
  (c8_checkRedisHealth_disabled envBase { enabled := false } rfl rfl).1

/-- C9: a failure of the rendering step propagates out of `getMetrics` as-is,
and `getMetrics` succeeds exactly when rendering succeeds, with exactly the
rendered text. -/
theorem c9_getMetrics_propagates (fmt : MetricsData → Except String String) (env : HSEnv) :
    (∀ e, fmt (metricsDataOf (getHealthStatus env)) = .error e →
      getMetricsWith fmt env = .error e) ∧
    (∀ s, fmt (metricsDataOf (getHealthStatus env)) = .ok s →
      getMetricsWith fmt env = .ok s) := by
  constructor
  · intro e h
    simp [getMetricsWith, h]
  · intro s h
    simp [getMetricsWith, h]

/-- Witness for C9: a formatter throwing "Formatting error" makes `getMetrics`
fail with exactly that error. -/
theorem c9_getMetrics_propagates_witness :
    getMetricsWith (fun _ => .error "Formatting error") envBase
        = .error "Formatting error" :=
  (c9_getMetrics_propagates (fun _ => .error "Formatting error") envBase).1
    "Formatting error" rfl

/-- C10: the `evolution_api_redis_up` gauge is `1` exactly when the cache
probe reports `connected` and `0` otherwise; the rendered exposition cannot
distinguish a disabled cache from any other non-connected status; yet a
disabled cache with a connected database still yields `healthy`. -/
theorem c10_redis_up_gauge (healthStatus : HealthStatus) (s1 s2 : RedisStatus)
    (h1 : s1 ≠ .connected) (h2 : s2 ≠ .connected) :
    (metricsDataOf healthStatus).redis_connection_status
        = (if healthStatus.redis.status = .connected then 1 else 0) ∧
    (prometheusLines (metricsDataOf healthStatus))[26]?
        = some ("evolution_api_redis_up "
            ++ toString (metricsDataOf healthStatus).redis_connection_status) ∧
    metricsDataOf { healthStatus with redis := { healthStatus.redis with status := s1 } }
        = metricsDataOf { healthStatus with redis := { healthStatus.redis with status := s2 } } ∧
    (∀ db r, db.status = .connected → r.status = .disabled →
      determineOverallStatus db r = .healthy) := by
  refine ⟨rfl, rfl, ?_, ?_⟩
  · simp [metricsDataOf, h1, h2]
  · intro db r hdb hr
    simp [determineOverallStatus, hdb, hr]

/-- Witness for C10 at `disabled` versus `error`. -/
theorem c10_redis_up_gauge_witness :
    metricsDataOf
        { getHealthStatus envBase with
          redis := { (getHealthStatus envBase).redis with status := .disabled } }
      = metricsDataOf
        { getHealthStatus envBase with
          redis := { (getHealthStatus envBase).redis with status := .error } } :=
  (c10_redis_up_gauge (getHealthStatus envBase) .disabled .error
    (by decide) (by decide)).2.2.1

/-!
Registry operations of `WAMonitoringService`.  The service's source file is
not part of the snapshot — only its test suite is — so these definitions are
modelled from the spec (§4.1, §7) with the behavior the tests pin: the exact
`NotFoundException` messages of `instanceInfo` / `instanceInfoById`, and
`saveInstance`'s handling of store failures.
-/

/-- Error taxonomy of the Registry operations (spec §7): `NotFound` and
`PersistenceError`, each carrying a message. -/
inductive MonitorError
  | notFoundError (message : String)
  | persistenceError (message : String)
deriving DecidableEq, Repr

/-- A persisted instance record, restricted to the fields the lookup
operations consult. -/
structure InstanceRecord where
  id : String
  name : String
  number : Option String := none
deriving DecidableEq, Repr

/-- The creation request passed to `saveInstance` (the fields the failing-path
test supplies). -/
structure InstanceCreateData where
  instanceId : String
  instanceName : String
  hash : String
deriving DecidableEq, Repr

/-- Modelled from the spec: the collaborators of `WAMonitoringService` — its
registry snapshot (the names holding an in-memory handle), the persistent
store's `create`, `findMany`, and the two `findFirst` queries, each modelled by
its outcome. -/
structure MonitorEnv where
  waInstances : List String
  create : InstanceCreateData → Except MonitorError InstanceRecord
  findMany : Option (List String) → Except MonitorError (List InstanceRecord)
  findFirstById : String → Option InstanceRecord
  findFirstByNumber : String → Option InstanceRecord

/-- Modelled from the spec: `WAMonitoringService.saveInstance` — source absent
from the snapshot; its behavior is pinned by the repository's test "should
handle database errors gracefully": the record is written via
`prismaRepository.instance.create`, a write failure is caught and logged
inside `saveInstance` (which then resolves normally, contrary to spec §4.1),
and the in-memory snapshot is not touched by this operation. -/
def saveInstance (env : MonitorEnv) (data : InstanceCreateData) :
    Except MonitorError Unit × List String :=
  match env.create data with
  | .ok _ => (.ok (), env.waInstances)
  | .error _m => (.ok (), env.waInstances)

/-- The `NotFoundException` message of `instanceInfo`, as pinned by the tests:
singular for one missing name, pluralized and comma-joined for several. -/
def notFoundMessage (missing : List String) : String :=
  "Instance" ++ (if missing.length > 1 then "s" else "") ++ " \""
    ++ String.intercalate ", " missing ++ "\" not found"

/-- Modelled from the spec: `WAMonitoringService.instanceInfo` — source absent
from the snapshot; per spec §4.1 and the NotFound tests: when names are given,
every name must hold a handle in the snapshot, otherwise the lookup fails with
`NotFound` listing exactly the missing names; otherwise the persisted records
are queried (scoped to the given names when present). -/
def instanceInfo (env : MonitorEnv) (instanceNames : Option (List String)) :
    Except MonitorError (List InstanceRecord) :=
  match instanceNames with
  | some names =>
    if names.length > 0 then
      let inexistentInstances := names.filter (fun n => !(env.waInstances.contains n))
      if inexistentInstances.length > 0 then
        .error (.notFoundError (notFoundMessage inexistentInstances))
      else env.findMany (some names)
    else env.findMany none
  | none => env.findMany none

/-- Modelled from the spec: `WAMonitoringService.instanceInfoById` — source
absent from the snapshot; per spec §4.1 and the NotFound tests: resolve the
persisted record by id or by number; fail with `NotFound` carrying the given
id or number when no record matches, and with `NotFound` carrying the record's
name when the record exists but no handle is loaded (the spec expects exactly
one of id/number, so the neither-given case is collapsed to a `NotFound`). -/
def instanceInfoById (env : MonitorEnv) (instanceId : Option String)
    (number : Option String) : Except MonitorError (List InstanceRecord) :=
  match instanceId with
  | some iid =>
    match env.findFirstById iid with
    | none => .error (.notFoundError ("Instance \"" ++ iid ++ "\" not found"))
    | some record =>
      if env.waInstances.contains record.name then
        instanceInfo env (some [record.name])
      else
        .error (.notFoundError ("Instance \"" ++ record.name ++ "\" not found"))
  | none =>
    match number with
    | some num =>
      match env.findFirstByNumber num with
      | none => .error (.notFoundError ("Instance \"" ++ num ++ "\" not found"))
      | some record =>
        if env.waInstances.contains record.name then
          instanceInfo env (some [record.name])
        else
          .error (.notFoundError ("Instance \"" ++ record.name ++ "\" not found"))
    | none => .error (.notFoundError "Instance \"\" not found")

/-- A concrete Registry environment whose store write always fails and whose
snapshot is empty. -/
def monitorEnvFailingStore : MonitorEnv :=
  { waInstances := []
    create := fun _ => .error (.persistenceError "Database error")
    findMany := fun _ => .ok []
    findFirstById := fun _ => none
    findFirstByNumber := fun _ => none }

/-- C5 counterexample: with a failing store write, `saveInstance` resolves
normally (no `PersistenceError` reaches the caller) while leaving the snapshot
unchanged — the claimed propagation does not happen. -/
theorem c5_saveInstance_swallows_counterexample :
    (saveInstance monitorEnvFailingStore
        { instanceId := "test-id", instanceName := "test-instance", hash := "test-token" }).1
      = .ok () ∧
    (saveInstance monitorEnvFailingStore
        { instanceId := "test-id", instanceName := "test-instance", hash := "test-token" }).2
      = [] :=
  ⟨rfl, rfl⟩

/-- C5 (amended): for every store behavior, `saveInstance` resolves normally —
a write failure is caught and logged inside the operation rather than
propagated — and the registry snapshot is never modified by it, so no partial
state is left behind. -/
theorem c5_saveInstance_no_partial_state (env : MonitorEnv) (data : InstanceCreateData) :
    (saveInstance env data).1 = .ok () ∧
    (saveInstance env data).2 = env.waInstances := by
  cases h : env.create data with
  | ok record => simp [saveInstance, h]
  | error m => simp [saveInstance, h]

/-- C6: a lookup by names where some names hold no handle fails with a
`NotFound` naming exactly the missing names — singular phrasing for one
missing name, a comma-joined pluralized list for several. -/
theorem c6_instanceInfo_notFound (env : MonitorEnv) (names missing : List String)
    (hne : names.length > 0)
    (hfil : names.filter (fun n => !(env.waInstances.contains n)) = missing)
    (hmiss : missing.length > 0) :
    instanceInfo env (some names) = .error (.notFoundError (notFoundMessage missing)) ∧
    (∀ n, missing = [n] →
      instanceInfo env (some names)
        = .error (.notFoundError ("Instance \"" ++ n ++ "\" not found"))) ∧
    (1 < missing.length →
      instanceInfo env (some names)
        = .error (.notFoundError
            ("Instances \"" ++ String.intercalate ", " missing ++ "\" not found"))) := by
  have hmain : instanceInfo env (some names)
      = .error (.notFoundError (notFoundMessage missing)) := by
    unfold instanceInfo
    dsimp only
    rw [if_pos hne, hfil, if_pos hmiss]
  refine ⟨hmain, ?_, ?_⟩
  · rintro n rfl
    rw [hmain]
    rfl
  · intro hlen
    rw [hmain]
    simp only [notFoundMessage, if_pos hlen]
    rfl

/-- Witness for C6: two ghost names against an empty registry. -/
theorem c6_instanceInfo_notFound_witness :
    instanceInfo monitorEnvFailingStore (some ["ghost-1", "ghost-2"])
        = .error (.notFoundError "Instances \"ghost-1, ghost-2\" not found") := by
  have h := (c6_instanceInfo_notFound monitorEnvFailingStore ["ghost-1", "ghost-2"]
      ["ghost-1", "ghost-2"] (by decide) (by decide) (by decide)).2.2 (by decide)
  rw [h]
  rfl

/-- C7: a lookup by id or number fails with `NotFound` carrying the given id
or number when no record matches, and with `NotFound` carrying the record's
name when the record exists but its handle is absent from the snapshot. -/
theorem c7_instanceInfoById_notFound (env : MonitorEnv) :
    (∀ iid, env.findFirstById iid = none →
      instanceInfoById env (some iid) none
        = .error (.notFoundError ("Instance \"" ++ iid ++ "\" not found"))) ∧
    (∀ iid record, env.findFirstById iid = some record →
      env.waInstances.contains record.name = false →
      instanceInfoById env (some iid) none
        = .error (.notFoundError ("Instance \"" ++ record.name ++ "\" not found"))) ∧
    (∀ num, env.findFirstByNumber num = none →
      instanceInfoById env none (some num)
        = .error (.notFoundError ("Instance \"" ++ num ++ "\" not found"))) ∧
    (∀ num record, env.findFirstByNumber num = some record →
      env.waInstances.contains record.name = false →
      instanceInfoById env none (some num)
        = .error (.notFoundError ("Instance \"" ++ record.name ++ "\" not found"))) := by
  refine ⟨?_, ?_, ?_, ?_⟩
  · intro iid h
    simp [instanceInfoById, h]
  · intro iid record h hc
    simp [instanceInfoById, h, hc]
    intro hmem
    exact absurd hmem (by simpa using hc)
  · intro num h
    simp [instanceInfoById, h]
  · intro num record h hc
    simp [instanceInfoById, h, hc]
    intro hmem
    exact absurd hmem (by simpa using hc)

/-- A concrete Registry environment where the store has a record whose handle
is not loaded in the snapshot. -/
def monitorEnvUnloaded : MonitorEnv :=
  { waInstances := []
    create := fun _ => .ok { id := "test-id", name := "test-instance" }
    findMany := fun _ => .ok []
    findFirstById := fun _ => some { id := "test-id", name := "test-instance" }
    findFirstByNumber := fun _ => none }

/-- Witness for C7: a persisted-but-unloaded record surfaces the record's
name, not the queried id. -/
theorem c7_instanceInfoById_notFound_witness :
    instanceInfoById monitorEnvUnloaded (some "test-id") none
        = .error (.notFoundError "Instance \"test-instance\" not found") := by
  have h := (c7_instanceInfoById_notFound monitorEnvUnloaded).2.1 "test-id"
      { id := "test-id", name := "test-instance", number := none } rfl rfl
  rw [h]
  rfl
